import Mathlib

/-!
Verification development for the sentiment scoring and ensemble pipeline:
a shallow embedding of the preprocessor, the lexical (VADER) scorer glue,
the contextual (RoBERTa) scorer glue, the ensemble resolver and the
pipeline orchestrator, followed by theorems about the embedded code.

Numeric scores are modelled as rationals; the external model runtimes
(the VADER polarity table and the transformer inference including its
softmax) are abstracted as score oracles, since their numerical internals
are outside the repository.  The regex substitutions of the preprocessor
are embedded as explicit left-to-right scanners with the exact match
shapes of the compiled patterns.  Each scanner carries a fuel argument;
fuel equal to the length of the input list always suffices because every
step consumes at least one character, so the fuel wrapper computes the
same function as the unbounded scanner.
-/

/-- A Python value as it may appear in a DataFrame cell: a string, the
None object, a float NaN (what pandas stores for a null text cell), an
integer, or a rational number standing for a float score. -/
inductive PyVal where
| vstr (s : String)
| vnone
| vnan
| vint (n : Int)
| vrat (q : ℚ)
deriving DecidableEq, Repr

/-- The Python built-in str() coercion as applied by the pipeline to the
text and platform cells: a string stays itself, None prints as "None",
a float NaN prints as "nan", an integer prints in decimal. -/
def pyStr : PyVal → String
| .vstr s => s
| .vnone => "None"
| .vnan => "nan"
| .vint n => toString n
| .vrat q => toString q

/-- Whether the value is a Python str (the isinstance check of preprocess). -/
def PyVal.isStr : PyVal → Bool
| .vstr _ => true
| _ => false

/-- Whitespace characters: the ASCII fragment of the regex class \s and of
the str.strip default set (space, tab, newline, carriage return, vertical
tab, form feed). -/
def pySpace (c : Char) : Bool :=
  c.toNat = 32 || c.toNat = 9 || c.toNat = 10 || c.toNat = 13 ||
  c.toNat = 11 || c.toNat = 12

/-- Word characters: the ASCII fragment of the regex class \w
(letters, digits, underscore, code 95). -/
def pyWord (c : Char) : Bool := c.isAlphanum || c.toNat = 95

/-- str.strip on a character list: drop whitespace from both ends. -/
def pyStripList (cs : List Char) : List Char :=
  ((cs.dropWhile pySpace).reverse.dropWhile pySpace).reverse

/-- str.strip on a String. -/
def pyStrip (s : String) : String := String.mk (pyStripList s.toList)

/-- Scanner for the substitution of the HTML entity pattern (ampersand,
one or more word characters, semicolon) by a single space, as in
re.sub over the compiled pattern of the preprocessor. -/
def htmlSubF : ℕ → List Char → List Char
| 0, cs => cs
| _ + 1, [] => []
| fuel + 1, c :: rest =>
  if c = '&' then
    let w := rest.takeWhile pyWord
    if w.isEmpty then c :: htmlSubF fuel rest
    else
      match rest.drop w.length with
      | ';' :: _ => ' ' :: htmlSubF fuel (rest.drop (w.length + 1))
      | _ => c :: htmlSubF fuel rest
  else c :: htmlSubF fuel rest

/-- HTML entity substitution with sufficient fuel. -/
def htmlSub (cs : List Char) : List Char := htmlSubF cs.length cs

/-- Length of the URL match at the head of the list, if any: the pattern
is an alternation of http, an optional s, colon-slash-slash, then one or
more non-whitespace characters (greedy), with the alternative of the
literal www. followed by one or more non-whitespace characters. -/
def urlMatchLen (cs : List Char) : Option ℕ :=
  if cs.take 8 = "https://".toList then
    let nsp := (cs.drop 8).takeWhile (fun c => !pySpace c)
    if nsp.isEmpty then none else some (8 + nsp.length)
  else if cs.take 7 = "http://".toList then
    let nsp := (cs.drop 7).takeWhile (fun c => !pySpace c)
    if nsp.isEmpty then none else some (7 + nsp.length)
  else if cs.take 4 = "www.".toList then
    let nsp := (cs.drop 4).takeWhile (fun c => !pySpace c)
    if nsp.isEmpty then none else some (4 + nsp.length)
  else none

/-- Scanner removing every URL match (replacement is the empty string). -/
def urlSubF : ℕ → List Char → List Char
| 0, cs => cs
| _ + 1, [] => []
| fuel + 1, c :: rest =>
  match urlMatchLen (c :: rest) with
  | some n => urlSubF fuel ((c :: rest).drop n)
  | none => c :: urlSubF fuel rest

/-- URL removal with sufficient fuel. -/
def urlSub (cs : List Char) : List Char := urlSubF cs.length cs

/-- Scanner replacing every mention match (at-sign followed by one or
more word characters) with the literal placeholder at-user. -/
def mentionSubF : ℕ → List Char → List Char
| 0, cs => cs
| _ + 1, [] => []
| fuel + 1, c :: rest =>
  if c = '@' then
    let w := rest.takeWhile pyWord
    if w.isEmpty then c :: mentionSubF fuel rest
    else "@user".toList ++ mentionSubF fuel (rest.drop w.length)
  else c :: mentionSubF fuel rest

/-- Mention substitution with sufficient fuel. -/
def mentionSub (cs : List Char) : List Char := mentionSubF cs.length cs

/-- Scanner replacing every hashtag match (hash sign followed by one or
more word characters) with its captured word, keeping the word. -/
def hashtagSubF : ℕ → List Char → List Char
| 0, cs => cs
| _ + 1, [] => []
| fuel + 1, c :: rest =>
  if c = '#' then
    let w := rest.takeWhile pyWord
    if w.isEmpty then c :: hashtagSubF fuel rest
    else w ++ hashtagSubF fuel (rest.drop w.length)
  else c :: hashtagSubF fuel rest

/-- Hashtag substitution with sufficient fuel. -/
def hashtagSub (cs : List Char) : List Char := hashtagSubF cs.length cs

/-- The anchored case-insensitive retweet marker: the letters r t at the
very start followed by one or more whitespace characters, all removed. -/
def rtSub (cs : List Char) : List Char :=
  if (cs.take 2).map Char.toLower = ['r', 't'] then
    let sp := (cs.drop 2).takeWhile pySpace
    if sp.isEmpty then cs else cs.drop (2 + sp.length)
  else cs

/-- The markdown character class of the reddit rule: asterisk (42),
underscore (95), tilde (126), backquote (96), greater-than (62),
curly braces (123, 125), square brackets (91, 93). -/
def isMarkdownChar (c : Char) : Bool :=
  c.toNat = 42 || c.toNat = 95 || c.toNat = 126 || c.toNat = 96 ||
  c.toNat = 62 || c.toNat = 123 || c.toNat = 125 || c.toNat = 91 ||
  c.toNat = 93

/-- Replacing every run of markdown characters by the empty string is the
same as deleting every markdown character. -/
def markdownSub (cs : List Char) : List Char :=
  cs.filter (fun c => !isMarkdownChar c)

/-- Scanner removing every case-insensitive occurrence of the seventeen
character literal phrase Verified Purchase. -/
def verifiedPurchaseSubF : ℕ → List Char → List Char
| 0, cs => cs
| _ + 1, [] => []
| fuel + 1, c :: rest =>
  if ((c :: rest).take 17).map Char.toLower = "verified purchase".toList then
    verifiedPurchaseSubF fuel ((c :: rest).drop 17)
  else c :: verifiedPurchaseSubF fuel rest

/-- Verified Purchase removal with sufficient fuel. -/
def verifiedPurchaseSub (cs : List Char) : List Char :=
  verifiedPurchaseSubF cs.length cs

/-- Scanner collapsing every run of whitespace to a single space. -/
def wsSubF : ℕ → List Char → List Char
| 0, cs => cs
| _ + 1, [] => []
| fuel + 1, c :: rest =>
  if pySpace c then
    let sp := rest.takeWhile pySpace
    ' ' :: wsSubF fuel (rest.drop sp.length)
  else c :: wsSubF fuel rest

/-- Whitespace collapsing with sufficient fuel. -/
def wsSub (cs : List Char) : List Char := wsSubF cs.length cs

/-- The platform dispatch of preprocess, selected by exact string match:
twitter applies retweet stripping, then mention substitution, then
hashtag substitution; reddit deletes markdown characters; amazon removes
the Verified Purchase phrase; anything else is the identity. -/
def platformStep (platform : String) (cs : List Char) : List Char :=
  if platform = "twitter" then hashtagSub (mentionSub (rtSub cs))
  else if platform = "reddit" then markdownSub cs
  else if platform = "amazon" then verifiedPurchaseSub cs
  else cs

/-- TextPreprocessor.preprocess: a non-string or blank-after-strip input
yields the empty string; otherwise HTML entities become spaces, URLs are
removed, the platform rule is applied, and whitespace is collapsed and
stripped, in that order. -/
def preprocess (text : PyVal) (platform : String) : String :=
  match text with
  | .vstr s =>
    if pyStrip s = "" then ""
    else
      let t1 := htmlSub s.toList
      let t2 := urlSub t1
      let t3 := platformStep platform t2
      String.mk (pyStripList (wsSub t3))
  | _ => ""

/-- str.split with no separator: split on whitespace runs, dropping
empty tokens. -/
def pySplitF : ℕ → List Char → List (List Char)
| 0, _ => []
| fuel + 1, cs =>
  match cs.dropWhile pySpace with
  | [] => []
  | c :: rest =>
    let tok := (c :: rest).takeWhile (fun c => !pySpace c)
    tok :: pySplitF fuel ((c :: rest).drop tok.length)

/-- str.split with sufficient fuel. -/
def pySplit (cs : List Char) : List (List Char) := pySplitF cs.length cs

/-- The per-token rule of preprocess for the contextual model: a token
starting with the at-sign and longer than one character becomes the
at-user placeholder; a token starting with http becomes http. -/
def robertaToken (tok : List Char) : List Char :=
  if tok.head? = some '@' ∧ 1 < tok.length then "@user".toList
  else if "http".toList.isPrefixOf tok then "http".toList
  else tok

/-- TextPreprocessor.preprocess for the contextual model: split on
whitespace, map the token rule, join with single spaces. -/
def preprocess_for_roberta (s : String) : String :=
  String.intercalate " " ((pySplit s.toList).map (fun t => String.mk (robertaToken t)))

/-- The four polarity scores returned by the external VADER lexicon
algorithm for one text (abstracted as an oracle). -/
structure VaderScores where
  compound : ℚ
  pos : ℚ
  neg : ℚ
  neu : ℚ
deriving DecidableEq, Repr

/-- VaderAnalyzer: discretize the compound score with the fixed
thresholds: at least five hundredths is positive, at most minus five
hundredths is negative, anything else is neutral. -/
def compound_to_label (compound : ℚ) : String :=
  if compound ≥ 0.05 then "positive"
  else if compound ≤ -0.05 then "negative"
  else "neutral"

/-- The lexical result record attached to a row. -/
structure VaderResult where
  vader_compound : ℚ
  vader_positive : ℚ
  vader_negative : ℚ
  vader_neutral : ℚ
  vader_label : String
deriving DecidableEq, Repr

/-- VaderAnalyzer.analyze: read the polarity scores and discretize the
compound into the label. -/
def vader_analyze (polarity : String → VaderScores) (text : String) : VaderResult :=
  let s := polarity text
  ⟨s.compound, s.pos, s.neg, s.neu, compound_to_label s.compound⟩

/-- The contextual model abstracted as an oracle: the post-softmax class
probabilities at indices zero, one, two (negative, neutral, positive)
for one text, and the id-to-label table of the model configuration. -/
structure RobertaModel where
  scores : String → ℚ × ℚ × ℚ
  id2label : ℕ → String

/-- np.argmax over the three class scores: the first index holding the
maximum. -/
def argmax3 (s0 s1 s2 : ℚ) : ℕ :=
  if s0 ≥ s1 ∧ s0 ≥ s2 then 0 else if s1 ≥ s2 then 1 else 2

/-- Indexing the three class scores. -/
def pick3 (s0 s1 s2 : ℚ) (i : ℕ) : ℚ :=
  if i = 0 then s0 else if i = 1 then s1 else s2

/-- The contextual result record attached to a row. -/
structure RobertaResult where
  roberta_label : String
  roberta_score : ℚ
  roberta_positive : ℚ
  roberta_negative : ℚ
  roberta_neutral : ℚ
deriving DecidableEq, Repr

/-- RobertaAnalyzer.analyze: score one text, take the argmax class as
label, record its probability and the three class probabilities
(index two is positive, index zero negative, index one neutral). -/
def roberta_analyze (m : RobertaModel) (text : String) : RobertaResult :=
  let s := m.scores text
  let idx := argmax3 s.1 s.2.1 s.2.2
  ⟨m.id2label idx, pick3 s.1 s.2.1 s.2.2 idx, s.2.2, s.1, s.2.1⟩

/-- Partition a list into consecutive chunks of size b, in order (the
range loop of analyze_batch with step b). -/
def chunksF (b : ℕ) : ℕ → List α → List (List α)
| _, [] => []
| 0, _ :: _ => []
| fuel + 1, x :: xs =>
  ((x :: xs).take b) :: chunksF b fuel ((x :: xs).drop b)

/-- Chunking with sufficient fuel (one chunk consumes at least one
element whenever b is positive). -/
def chunks (b : ℕ) (xs : List α) : List (List α) := chunksF b xs.length xs

/-- RobertaAnalyzer.analyze_batch: process the texts chunk by chunk in
input order, each chunk through one inference call, and append the per
text results in order. -/
def analyze_batch (m : RobertaModel) (texts : List String) (batch_size : ℕ) :
    List RobertaResult :=
  ((chunks batch_size texts).map (fun batch => batch.map (roberta_analyze m))).flatten

/-- One input row of the DataFrame: the raw text cell and the platform
cell, both arbitrary Python values. -/
structure PyRow where
  text : PyVal
  platform : PyVal
deriving DecidableEq, Repr

/-- The pipeline state: the lexical oracle is always present; the
contextual model is present only when requested and constructed
successfully. -/
structure SentimentPipeline where
  polarity : String → VaderScores
  roberta : Option RobertaModel

/-- SentimentPipeline constructor: when use_roberta is set, a successful
construction stores the model; a construction failure is caught, leaves
the model absent and raises the warning flag (the logged warning);
otherwise the model is absent with no warning.  Construction itself
always succeeds. -/
def mk_sentiment_pipeline (polarity : String → VaderScores) (use_roberta : Bool)
    (ctor : Except String RobertaModel) : SentimentPipeline × Bool :=
  match use_roberta, ctor with
  | true, .ok m => (⟨polarity, some m⟩, false)
  | true, .error _ => (⟨polarity, none⟩, true)
  | false, _ => (⟨polarity, none⟩, false)

/-- SentimentPipeline ensemble label rule: when the contextual model ran
and the row carries a contextual label, agreement keeps the shared label
and disagreement is resolved in favour of the contextual label;
otherwise the lexical label stands. -/
def ensemble_label (has_roberta : Bool) (vl : String) (rl : Option String) : String :=
  match has_roberta, rl with
  | true, some r => if vl = r then vl else r
  | _, _ => vl

/-- SentimentPipeline ensemble score rule: the lexical compound is mapped
from minus-one-to-one onto zero-to-one; when the contextual
probabilities are present, the positive-minus-negative signal is mapped
the same way and the two are blended three tenths to seven tenths. -/
def ensemble_score (has_roberta : Bool) (vader_compound : ℚ)
    (roberta_probs : Option (ℚ × ℚ)) : ℚ :=
  let vader_norm := (vader_compound + 1) / 2
  match has_roberta, roberta_probs with
  | true, some pn =>
    let roberta_norm := ((pn.1 - pn.2) + 1) / 2
    0.3 * vader_norm + 0.7 * roberta_norm
  | _, _ => vader_norm

/-- One fully analyzed output row. -/
structure RecordOut where
  clean_text : String
  vader : VaderResult
  roberta : Option RobertaResult
  final_label : String
  final_score : ℚ
deriving DecidableEq, Repr

/-- The clean text of a row: the pipeline coerces the text and platform
cells through str() before calling preprocess. -/
def clean_of (r : PyRow) : String :=
  preprocess (PyVal.vstr (pyStr r.text)) (pyStr r.platform)

/-- Assemble one output row from its clean text and optional contextual
result, computing the lexical fields and the ensemble fields. -/
def mk_record (p : SentimentPipeline) (clean : String) (rob : Option RobertaResult) :
    RecordOut :=
  let v := vader_analyze p.polarity clean
  ⟨clean, v, rob,
    ensemble_label p.roberta.isSome v.vader_label (rob.map RobertaResult.roberta_label),
    ensemble_score p.roberta.isSome v.vader_compound
      (rob.map (fun rr => (rr.roberta_positive, rr.roberta_negative)))⟩

/-- SentimentPipeline.analyze_dataframe over the rows of the frame:
preprocess every row, lexical-score every clean text, contextual-score
the secondary-cleaned texts in batches of thirty-two when the model is
present (absent for every row otherwise), then resolve the ensemble per
row. -/
def analyze_dataframe (p : SentimentPipeline) (rows : List PyRow) : List RecordOut :=
  let cleans := rows.map clean_of
  let robertas : List (Option RobertaResult) :=
    match p.roberta with
    | some m => (analyze_batch m (cleans.map preprocess_for_roberta) 32).map some
    | none => cleans.map (fun _ => none)
  List.zipWith (mk_record p) cleans robertas

/-- The row-at-a-time description of the pipeline (what the column-wise
code computes for one row). -/
def analyze_row (p : SentimentPipeline) (r : PyRow) : RecordOut :=
  let clean := clean_of r
  mk_record p clean (p.roberta.map (fun m => roberta_analyze m (preprocess_for_roberta clean)))

/-- What one output row is when the contextual model is absent: no
contextual fields, final label and score from the lexical result alone. -/
def lex_only_row (polarity : String → VaderScores) (r : PyRow) : RecordOut :=
  let clean := clean_of r
  let v := vader_analyze polarity clean
  ⟨clean, v, none, v.vader_label, (v.vader_compound + 1) / 2⟩

/-- Substring test used to state the preprocessing examples. -/
def hasSub (cs pat : List Char) : Bool :=
  (List.range (cs.length + 1)).any (fun i => pat.isPrefixOf (cs.drop i))

/-- Claim C1: the ensemble label rule: with the contextual result absent
the final label is the lexical label; with it present and equal to the
lexical label the shared label is kept; with it present and different
the contextual label wins and the result is never the lexical label,
for every pair of differing labels. -/
theorem claim_C1 :
    (∀ (b : Bool) (v : String), ensemble_label b v none = v) ∧
    (∀ v r : String, v = r → ensemble_label true v (some r) = v) ∧
    (∀ v r : String, v ≠ r →
      ensemble_label true v (some r) = r ∧ ensemble_label true v (some r) ≠ v) := by
  refine ⟨fun b v => by cases b <;> rfl, fun v r h => by simp [ensemble_label, h], ?_⟩
  intro v r h
  constructor
  · simp [ensemble_label, h]
  · simp only [ensemble_label, if_neg h]
    exact fun hh => h hh.symm

/-- Witness for claim C1 at concrete labels. -/
theorem claim_C1_witness :
    (ensemble_label false "positive" none = "positive") ∧
    (ensemble_label true "neutral" (some "neutral") = "neutral") ∧
    (ensemble_label true "positive" (some "negative") = "negative" ∧
      ensemble_label true "positive" (some "negative") ≠ "positive") :=
  ⟨claim_C1.1 false "positive",
   claim_C1.2.1 "neutral" "neutral" rfl,
   claim_C1.2.2 "positive" "negative" (by decide)⟩

/-- Claim C2: the ensemble score rule: with the contextual result absent
the final score is the normalized lexical compound; with it present it
is the three-tenths to seven-tenths blend of the normalized lexical
compound and the normalized positive-minus-negative contextual signal. -/
theorem claim_C2 :
    (∀ (b : Bool) (c : ℚ), ensemble_score b c none = (c + 1) / 2) ∧
    (∀ c p n : ℚ, ensemble_score true c (some (p, n)) =
      0.3 * ((c + 1) / 2) + 0.7 * ((p - n + 1) / 2)) :=
  ⟨fun b c => by cases b <;> rfl, fun c p n => rfl⟩

/-- Claim C3: the lexical label thresholds are exact and inclusive: at
least five hundredths is positive, at most minus five hundredths is
negative, strictly between is neutral, with the stated boundary values. -/
theorem claim_C3 :
    (∀ c : ℚ, 0.05 ≤ c → compound_to_label c = "positive") ∧
    (∀ c : ℚ, c ≤ -0.05 → compound_to_label c = "negative") ∧
    (∀ c : ℚ, -0.05 < c → c < 0.05 → compound_to_label c = "neutral") ∧
    compound_to_label 0.05 = "positive" ∧
    compound_to_label (-0.05) = "negative" ∧
    compound_to_label 0 = "neutral" := by
  refine ⟨?_, ?_, ?_, by norm_num [compound_to_label], by norm_num [compound_to_label],
    by norm_num [compound_to_label]⟩
  · intro c h
    simp [compound_to_label, h]
  · intro c h
    have h1 : ¬(c ≥ 0.05) := by
      intro hc
      have : (0.05 : ℚ) ≤ -0.05 := le_trans hc h
      norm_num at this
    simp [compound_to_label, h1, h]
  · intro c h1 h2
    have ha : ¬(c ≥ 0.05) := not_le.mpr h2
    have hb : ¬(c ≤ -0.05) := not_le.mpr h1
    simp [compound_to_label, ha, hb]

/-- Witness for claim C3 at concrete compound values. -/
theorem claim_C3_witness :
    ((0.05 : ℚ) ≤ 0.2 ∧ compound_to_label 0.2 = "positive") ∧
    ((-0.3 : ℚ) ≤ -0.05 ∧ compound_to_label (-0.3) = "negative") ∧
    ((-0.05 : ℚ) < 0.01 ∧ (0.01 : ℚ) < 0.05 ∧ compound_to_label 0.01 = "neutral") :=
  ⟨⟨by norm_num, claim_C3.1 0.2 (by norm_num)⟩,
   ⟨by norm_num, claim_C3.2.1 (-0.3) (by norm_num)⟩,
   ⟨by norm_num, by norm_num, claim_C3.2.2.1 0.01 (by norm_num) (by norm_num)⟩⟩

/-- Claim C4: preprocess returns the empty string for every non-string
input and for every string that is blank after stripping, for every
platform; it is a total function into strings, so it never raises. -/
theorem claim_C4 :
    (∀ (v : PyVal) (p : String), v.isStr = false → preprocess v p = "") ∧
    (∀ (s p : String), pyStrip s = "" → preprocess (PyVal.vstr s) p = "") := by
  constructor
  · intro v p h
    cases v <;> simp_all [preprocess, PyVal.isStr]
  · intro s p h
    simp [preprocess, h]

/-- Witness for claim C4 at a non-string input and a blank string. -/
theorem claim_C4_witness :
    (PyVal.vnone.isStr = false ∧ preprocess PyVal.vnone "twitter" = "") ∧
    (pyStrip "  " = "" ∧ preprocess (PyVal.vstr "  ") "reddit" = "") :=
  ⟨⟨by decide, claim_C4.1 PyVal.vnone "twitter" (by decide)⟩,
   ⟨by decide, claim_C4.2 "  " "reddit" (by decide)⟩⟩

/-- Claim C5: on the twitter platform, the retweet marker is stripped,
mentions become the at-user placeholder, the hash is removed from
hashtags keeping the word, and the worked example keeps no retweet
marker prefix, contains at-user and great, and keeps no hash sign and no
URL fragment. -/
theorem claim_C5 :
    "RT ".toList.isPrefixOf
      (preprocess (PyVal.vstr "RT @bob check http://x.co #great") "twitter").toList = false ∧
    hasSub (preprocess (PyVal.vstr "RT @bob check http://x.co #great") "twitter").toList
      "@user".toList = true ∧
    hasSub (preprocess (PyVal.vstr "RT @bob check http://x.co #great") "twitter").toList
      "great".toList = true ∧
    (preprocess (PyVal.vstr "RT @bob check http://x.co #great") "twitter").toList.contains
      '#' = false ∧
    hasSub (preprocess (PyVal.vstr "RT @bob check http://x.co #great") "twitter").toList
      "http".toList = false ∧
    hasSub (preprocess (PyVal.vstr "RT @bob check http://x.co #great") "twitter").toList
      "www.".toList = false := by decide

/-- Chunking then flattening a per-element map reproduces the plain map,
for any positive chunk size and sufficient fuel. -/
theorem chunksF_flatten_map {α β : Type _} (f : α → β) (b : ℕ) (hb : 0 < b) :
    ∀ (fuel : ℕ) (xs : List α), xs.length ≤ fuel →
      ((chunksF b fuel xs).map (List.map f)).flatten = xs.map f := by
  intro fuel
  induction fuel with
  | zero =>
    intro xs h
    have : xs = [] := List.eq_nil_of_length_eq_zero (Nat.le_zero.mp h)
    subst this
    rfl
  | succ n ih =>
    intro xs h
    cases xs with
    | nil => rfl
    | cons x xs =>
      have hlen : ((x :: xs).drop b).length ≤ n := by
        simp only [List.length_drop, List.length_cons] at *
        omega
      simp only [chunksF, List.map_cons, List.flatten_cons, ih ((x :: xs).drop b) hlen]
      rw [List.map_take, List.map_drop, List.take_append_drop]
      rfl

/-- analyze_batch with a positive batch size is the per-text map of the
single-text analyze, in input order. -/
theorem analyze_batch_eq_map (m : RobertaModel) (b : ℕ) (hb : 0 < b)
    (texts : List String) :
    analyze_batch m texts b = texts.map (roberta_analyze m) :=
  chunksF_flatten_map (roberta_analyze m) b hb texts.length texts (le_refl _)

/-- Claim C6: analyze_batch returns exactly one result per input text in
the original input order, chunked in order, and assigns to every text
the same label as a single-text analyze call on that text. -/
theorem claim_C6 (m : RobertaModel) (b : ℕ) (texts : List String) (hb : 0 < b) :
    analyze_batch m texts b = texts.map (roberta_analyze m) ∧
    (analyze_batch m texts b).length = texts.length ∧
    (analyze_batch m texts b).map RobertaResult.roberta_label =
      texts.map (fun t => (roberta_analyze m t).roberta_label) := by
  have h := analyze_batch_eq_map m b hb texts
  refine ⟨h, ?_, ?_⟩
  · rw [h, List.length_map]
  · rw [h, List.map_map]
    rfl

/-- A concrete contextual score oracle for the witnesses. -/
def model0 : RobertaModel := ⟨fun _ => (0, 0, 1), fun i => toString i⟩

/-- Witness for claim C6 at the default batch size on three texts. -/
theorem claim_C6_witness :
    0 < 32 ∧
    (analyze_batch model0 ["good", "bad", "meh"] 32 =
        ["good", "bad", "meh"].map (roberta_analyze model0) ∧
      (analyze_batch model0 ["good", "bad", "meh"] 32).length =
        (["good", "bad", "meh"] : List String).length ∧
      (analyze_batch model0 ["good", "bad", "meh"] 32).map RobertaResult.roberta_label =
        (["good", "bad", "meh"] : List String).map
          (fun t => (roberta_analyze model0 t).roberta_label)) :=
  ⟨by norm_num, claim_C6 model0 32 ["good", "bad", "meh"] (by norm_num)⟩

/-- Zipping two maps over the same list is a single map. -/
theorem zipWith_map_same {α β γ δ : Type _} (f : β → γ → δ) (g : α → β) (h : α → γ) :
    ∀ l : List α, List.zipWith f (l.map g) (l.map h) = l.map (fun x => f (g x) (h x)) := by
  intro l
  induction l with
  | nil => rfl
  | cons a l ih => simp [ih]

/-- The column-wise pipeline equals the row-at-a-time description. -/
theorem analyze_dataframe_eq_map (p : SentimentPipeline) (rows : List PyRow) :
    analyze_dataframe p rows = rows.map (analyze_row p) := by
  unfold analyze_dataframe
  cases hp : p.roberta with
  | none =>
    simp only [hp, List.map_map]
    rw [zipWith_map_same]
    simp [analyze_row, hp]
  | some m =>
    simp only [hp, analyze_batch_eq_map m 32 (by norm_num), List.map_map]
    rw [zipWith_map_same]
    simp [analyze_row, hp, Function.comp]

/-- Claim C7: a contextual scorer construction failure with use_roberta
set still yields a pipeline (construction is total), raises the warning
flag, leaves the contextual model absent, and every subsequent run
attaches no contextual fields and computes the final label and score
from the lexical result alone, for every record. -/
theorem claim_C7 (polarity : String → VaderScores) (e : String) (rows : List PyRow) :
    (mk_sentiment_pipeline polarity true (Except.error e)).2 = true ∧
    (mk_sentiment_pipeline polarity true (Except.error e)).1.roberta = none ∧
    analyze_dataframe (mk_sentiment_pipeline polarity true (Except.error e)).1 rows =
      rows.map (lex_only_row polarity) := by
  refine ⟨rfl, rfl, ?_⟩
  rw [analyze_dataframe_eq_map]
  rfl

/-- A concrete lexical oracle for the witnesses. -/
def polarity0 : String → VaderScores := fun _ => ⟨0, 0, 0, 1⟩

/-- A concrete lexical-only pipeline for the witnesses. -/
def pipeline0 : SentimentPipeline := ⟨polarity0, none⟩

/-- Counterexample for claim C8: a record whose text cell is None gets
clean text "None" (the pipeline coerces the cell through str() before
preprocessing), not the empty string the claim requires. -/
theorem claim_C8_counterexample :
    (analyze_dataframe pipeline0 [⟨PyVal.vnone, PyVal.vstr "general"⟩]).map
        RecordOut.clean_text = ["None"] ∧
    ("None" : String) ≠ "" := by
  constructor
  · rfl
  · decide

/-- Claim C8 as amended: analyze_dataframe never raises on malformed
text (it is a total function), and for every record the clean text is
preprocess applied to the str() coercion of the text cell, so a null or
non-string text yields the preprocessed string representation of the
value (for the None object, "None"), not necessarily the empty string. -/
theorem claim_C8 (p : SentimentPipeline) (rows : List PyRow) :
    (analyze_dataframe p rows).map RecordOut.clean_text =
      rows.map (fun r => preprocess (PyVal.vstr (pyStr r.text)) (pyStr r.platform)) ∧
    pyStr PyVal.vnone = "None" ∧ PyVal.vnone.isStr = false := by
  refine ⟨?_, rfl, rfl⟩
  rw [analyze_dataframe_eq_map, List.map_map]
  rfl

/-- Every word-character list followed by a semicolon is taken whole by
takeWhile over the word-character class. -/
theorem takeWhile_word_semi (w : List Char) (hall : ∀ c ∈ w, pyWord c = true) :
    (w ++ [';']).takeWhile pyWord = w := by
  induction w with
  | nil => rfl
  | cons a w ih =>
    have ha : pyWord a = true := hall a (List.mem_cons_self a w)
    simp only [List.cons_append, List.takeWhile_cons, ha, if_true]
    rw [ih (fun c hc => hall c (List.mem_cons_of_mem a hc))]

/-- Claim C9: for every non-blank string input and every platform, the
processing order of preprocess is fixed: HTML entity substitution first,
then URL removal, then the platform step, then whitespace collapsing and
stripping; and the HTML entity substitution replaces an entity
(ampersand, word characters, semicolon) by a single space. -/
theorem claim_C9 :
    (∀ (s p : String), pyStrip s ≠ "" →
      preprocess (PyVal.vstr s) p =
        String.mk (pyStripList (wsSub (platformStep p (urlSub (htmlSub s.toList)))))) ∧
    (∀ w : List Char, w ≠ [] → (∀ c ∈ w, pyWord c = true) →
      htmlSub ('&' :: (w ++ [';'])) = [' ']) := by
  constructor
  · intro s p h
    simp [preprocess, h]
  · intro w hw hall
    have heq : ('&' :: (w ++ [';'])).length = w.length + 1 + 1 := by
      simp
    rw [htmlSub, heq]
    simp only [htmlSubF, if_pos rfl]
    rw [takeWhile_word_semi w hall]
    have hne : w.isEmpty = false := by
      cases w with
      | nil => exact absurd rfl hw
      | cons a w => rfl
    simp only [hne, Bool.false_eq_true, if_false, List.drop_left]
    have hdrop : (w ++ [';']).drop (w.length + 1) = [] := by
      apply List.drop_eq_nil_of_le
      simp
    rw [hdrop]
    simp [htmlSubF]

/-- Witness for claim C9 at a concrete string and entity word. -/
theorem claim_C9_witness :
    (pyStrip "a&amp;b" ≠ "" ∧
      preprocess (PyVal.vstr "a&amp;b") "general" =
        String.mk (pyStripList (wsSub (platformStep "general"
          (urlSub (htmlSub "a&amp;b".toList)))))) ∧
    ("amp".toList ≠ [] ∧ htmlSub ('&' :: ("amp".toList ++ [';'])) = [' ']) :=
  ⟨⟨by decide, claim_C9.1 "a&amp;b" "general" (by decide)⟩,
   ⟨by decide, claim_C9.2 "amp".toList (by decide) (by decide)⟩⟩

/-- A DataFrame as an association list of named columns of cells. -/
abbrev DataFrame := List (String × List PyVal)

/-- Column assignment on a frame value: replace the column when the name
exists, append it otherwise. -/
def set_col (df : DataFrame) (name : String) (vals : List PyVal) : DataFrame :=
  if df.any (fun c => c.1 = name) then
    df.map (fun c => if c.1 = name then (name, vals) else c)
  else df ++ [(name, vals)]

/-- The column names of a frame. -/
def col_names (df : DataFrame) : List String := df.map Prod.fst

/-- Read a column of a frame by name. -/
def get_col (df : DataFrame) (name : String) : Option (List PyVal) :=
  (df.find? (fun c => c.1 = name)).map Prod.snd

/-- The rows of a frame, as seen through the per-row get calls of the
pipeline: a missing text or platform column reads as the empty string
for every row. -/
def rows_of (df : DataFrame) : List PyRow :=
  match get_col df "text", get_col df "platform" with
  | some ts, some ps => List.zipWith PyRow.mk ts ps
  | some ts, none => ts.map (fun t => ⟨t, PyVal.vstr ""⟩)
  | none, some ps => ps.map (fun q => ⟨PyVal.vstr "", q⟩)
  | none, none => []

/-- The derived columns the pipeline writes, in the order of the code:
the clean text, the five lexical columns, the five contextual columns
when the model is present (none otherwise), then the two final columns. -/
def out_columns (p : SentimentPipeline) (outs : List RecordOut) :
    List (String × List PyVal) :=
  [("clean_text", outs.map (fun o => PyVal.vstr o.clean_text)),
   ("vader_compound", outs.map (fun o => PyVal.vrat o.vader.vader_compound)),
   ("vader_positive", outs.map (fun o => PyVal.vrat o.vader.vader_positive)),
   ("vader_negative", outs.map (fun o => PyVal.vrat o.vader.vader_negative)),
   ("vader_neutral", outs.map (fun o => PyVal.vrat o.vader.vader_neutral)),
   ("vader_label", outs.map (fun o => PyVal.vstr o.vader.vader_label))] ++
  (if p.roberta.isSome then
    [("roberta_label", outs.map (fun o =>
        match o.roberta with | some rr => PyVal.vstr rr.roberta_label | none => PyVal.vnan)),
     ("roberta_score", outs.map (fun o =>
        match o.roberta with | some rr => PyVal.vrat rr.roberta_score | none => PyVal.vnan)),
     ("roberta_positive", outs.map (fun o =>
        match o.roberta with | some rr => PyVal.vrat rr.roberta_positive | none => PyVal.vnan)),
     ("roberta_negative", outs.map (fun o =>
        match o.roberta with | some rr => PyVal.vrat rr.roberta_negative | none => PyVal.vnan)),
     ("roberta_neutral", outs.map (fun o =>
        match o.roberta with | some rr => PyVal.vrat rr.roberta_neutral | none => PyVal.vnan))]
   else []) ++
  [("final_label", outs.map (fun o => PyVal.vstr o.final_label)),
   ("final_score", outs.map (fun o => PyVal.vrat o.final_score))]

/-- One mutating column write on a store of frame objects: the frame at
reference j is updated in place. -/
def df_store_write (store : List DataFrame) (j : ℕ) (name : String)
    (vals : List PyVal) : List DataFrame :=
  store.set j (set_col (store.getD j []) name vals)

/-- A sequence of mutating column writes, all on the object at j. -/
def write_cols (store : List DataFrame) (j : ℕ)
    (nvs : List (String × List PyVal)) : List DataFrame :=
  nvs.foldl (fun s nv => df_store_write s j nv.1 nv.2) store

/-- The same writes applied to a frame value instead of a store slot. -/
def fold_cols (df : DataFrame) (nvs : List (String × List PyVal)) : DataFrame :=
  nvs.foldl (fun d nv => set_col d nv.1 nv.2) df

/-- analyze_dataframe at the object level: the caller passes a reference
into the store; the method first evaluates df.copy(), allocating a fresh
object at the end of the store and rebinding its local name to it, then
performs every derived-column write on the fresh object, and returns its
reference. -/
def analyze_dataframe_store (p : SentimentPipeline) (store : List DataFrame)
    (i : ℕ) : List DataFrame × ℕ :=
  let df := store.getD i []
  let j := store.length
  let outs := analyze_dataframe p (rows_of df)
  (write_cols (store ++ [df]) j (out_columns p outs), j)

/-- Writes on the object at j do not change the object at any other
reference. -/
theorem write_cols_getElem_ne (j : ℕ) :
    ∀ (nvs : List (String × List PyVal)) (s : List DataFrame) (i : ℕ), i ≠ j →
      (write_cols s j nvs)[i]? = s[i]? := by
  intro nvs
  induction nvs with
  | nil => intro s i h; rfl
  | cons nv nvs ih =>
    intro s i h
    show (write_cols (df_store_write s j nv.1 nv.2) j nvs)[i]? = s[i]?
    rw [ih _ i h]
    exact List.getElem?_set_ne (fun hji => h hji.symm)

/-- Writes preserve the number of objects in the store. -/
theorem write_cols_length (j : ℕ) :
    ∀ (nvs : List (String × List PyVal)) (s : List DataFrame),
      (write_cols s j nvs).length = s.length := by
  intro nvs
  induction nvs with
  | nil => intro s; rfl
  | cons nv nvs ih =>
    intro s
    show (write_cols (df_store_write s j nv.1 nv.2) j nvs).length = s.length
    rw [ih]
    exact List.length_set s j _

/-- Writes on the object at j amount to folding the column assignments
over the frame value stored at j. -/
theorem write_cols_getD_eq_fold (j : ℕ) :
    ∀ (nvs : List (String × List PyVal)) (s : List DataFrame), j < s.length →
      (write_cols s j nvs).getD j [] = fold_cols (s.getD j []) nvs := by
  intro nvs
  induction nvs with
  | nil => intro s h; rfl
  | cons nv nvs ih =>
    intro s h
    show (write_cols (df_store_write s j nv.1 nv.2) j nvs).getD j [] = _
    rw [ih _ (by rw [df_store_write, List.length_set]; exact h)]
    have hset : (df_store_write s j nv.1 nv.2).getD j [] =
        set_col (s.getD j []) nv.1 nv.2 := by
      rw [df_store_write, List.getD, List.get?_eq_getElem?,
        List.getElem?_set_eq_of_lt _ h]
      rfl
    rw [hset]
    rfl

/-- Column assignment keeps every existing column name. -/
theorem mem_col_names_set_col (df : DataFrame) (name m : String) (vals : List PyVal)
    (h : m ∈ col_names df) : m ∈ col_names (set_col df name vals) := by
  unfold set_col
  split
  · unfold col_names at *
    rcases List.mem_map.mp h with ⟨c, hc, hfst⟩
    apply List.mem_map.mpr
    refine ⟨if c.1 = name then (name, vals) else c, List.mem_map_of_mem _ hc, ?_⟩
    split
    · simp_all
    · exact hfst
  · unfold col_names at *
    rw [List.map_append]
    exact List.mem_append_left _ h

/-- Column assignment makes the assigned name a column name. -/
theorem mem_col_names_set_col_self (df : DataFrame) (name : String)
    (vals : List PyVal) : name ∈ col_names (set_col df name vals) := by
  unfold set_col
  split
  · next hany =>
    rcases List.any_eq_true.mp hany with ⟨c, hc, hcn⟩
    unfold col_names
    apply List.mem_map.mpr
    refine ⟨if c.1 = name then (name, vals) else c, List.mem_map_of_mem _ hc, ?_⟩
    have : c.1 = name := by simpa using hcn
    simp [this]
  · unfold col_names
    rw [List.map_append]
    exact List.mem_append_right _ (by simp)

/-- Every existing column name survives folding the writes. -/
theorem mem_col_names_fold_cols (m : String) :
    ∀ (nvs : List (String × List PyVal)) (df : DataFrame),
      m ∈ col_names df → m ∈ col_names (fold_cols df nvs) := by
  intro nvs
  induction nvs with
  | nil => intro df h; exact h
  | cons nv nvs ih =>
    intro df h
    exact ih _ (mem_col_names_set_col df nv.1 m nv.2 h)

/-- Every written column name is a column name of the folded result. -/
theorem mem_col_names_fold_cols_of_mem (m : String) :
    ∀ (nvs : List (String × List PyVal)) (df : DataFrame) (v : List PyVal),
      (m, v) ∈ nvs → m ∈ col_names (fold_cols df nvs) := by
  intro nvs
  induction nvs with
  | nil => intro df v h; cases h
  | cons nv nvs ih =>
    intro df v h
    rcases List.mem_cons.mp h with h1 | h2
    · subst h1
      exact mem_col_names_fold_cols m nvs _ (mem_col_names_set_col_self df m v)
    · exact ih _ v h2

/-- Claim C10: analyze_dataframe never mutates the frame object passed
by the caller: after the call the object at the input reference is
unchanged; the method returns a fresh reference, distinct from the
input, and all derived columns are present only on the fresh object. -/
theorem claim_C10 (p : SentimentPipeline) (store : List DataFrame) (i : ℕ)
    (h : i < store.length) :
    (analyze_dataframe_store p store i).1[i]? = store[i]? ∧
    (analyze_dataframe_store p store i).2 = store.length ∧
    i ≠ (analyze_dataframe_store p store i).2 ∧
    "clean_text" ∈ col_names ((analyze_dataframe_store p store i).1.getD
      (analyze_dataframe_store p store i).2 []) ∧
    "final_label" ∈ col_names ((analyze_dataframe_store p store i).1.getD
      (analyze_dataframe_store p store i).2 []) ∧
    "final_score" ∈ col_names ((analyze_dataframe_store p store i).1.getD
      (analyze_dataframe_store p store i).2 []) := by
  have hne : i ≠ store.length := Nat.ne_of_lt h
  have hjlt : store.length < (store ++ [store.getD i []]).length := by
    rw [List.length_append]
    simp
  have hfold : (analyze_dataframe_store p store i).1.getD
      (analyze_dataframe_store p store i).2 [] =
      fold_cols (store.getD i [])
        (out_columns p (analyze_dataframe p (rows_of (store.getD i [])))) := by
    show (write_cols (store ++ [store.getD i []]) store.length _).getD store.length [] = _
    rw [write_cols_getD_eq_fold store.length _ _ hjlt, List.getD,
      List.get?_eq_getElem?, List.getElem?_concat_length]
    rfl
  refine ⟨?_, rfl, hne, ?_, ?_, ?_⟩
  · show (write_cols (store ++ [store.getD i []]) store.length _)[i]? = store[i]?
    rw [write_cols_getElem_ne store.length _ _ i hne]
    exact List.getElem?_append_left h
  · rw [hfold]
    apply mem_col_names_fold_cols_of_mem _ _ _
      ((analyze_dataframe p (rows_of (store.getD i []))).map
        (fun o => PyVal.vstr o.clean_text))
    simp [out_columns]
  · rw [hfold]
    apply mem_col_names_fold_cols_of_mem _ _ _
      ((analyze_dataframe p (rows_of (store.getD i []))).map
        (fun o => PyVal.vstr o.final_label))
    simp [out_columns]
  · rw [hfold]
    apply mem_col_names_fold_cols_of_mem _ _ _
      ((analyze_dataframe p (rows_of (store.getD i []))).map
        (fun o => PyVal.vrat o.final_score))
    simp [out_columns]

/-- Witness for claim C10 on a one-frame store. -/
theorem claim_C10_witness :
    0 < ([[("text", [PyVal.vstr "hi"]), ("platform", [PyVal.vstr "general"])]] :
        List DataFrame).length ∧
    ((analyze_dataframe_store pipeline0
        [[("text", [PyVal.vstr "hi"]), ("platform", [PyVal.vstr "general"])]] 0).1[0]? =
      ([[("text", [PyVal.vstr "hi"]), ("platform", [PyVal.vstr "general"])]] :
        List DataFrame)[0]? ∧
      (analyze_dataframe_store pipeline0
        [[("text", [PyVal.vstr "hi"]), ("platform", [PyVal.vstr "general"])]] 0).2 =
      ([[("text", [PyVal.vstr "hi"]), ("platform", [PyVal.vstr "general"])]] :
        List DataFrame).length ∧
      0 ≠ (analyze_dataframe_store pipeline0
        [[("text", [PyVal.vstr "hi"]), ("platform", [PyVal.vstr "general"])]] 0).2 ∧
      "clean_text" ∈ col_names ((analyze_dataframe_store pipeline0
        [[("text", [PyVal.vstr "hi"]), ("platform", [PyVal.vstr "general"])]] 0).1.getD
          (analyze_dataframe_store pipeline0
            [[("text", [PyVal.vstr "hi"]), ("platform", [PyVal.vstr "general"])]] 0).2 []) ∧
      "final_label" ∈ col_names ((analyze_dataframe_store pipeline0
        [[("text", [PyVal.vstr "hi"]), ("platform", [PyVal.vstr "general"])]] 0).1.getD
          (analyze_dataframe_store pipeline0
            [[("text", [PyVal.vstr "hi"]), ("platform", [PyVal.vstr "general"])]] 0).2 []) ∧
      "final_score" ∈ col_names ((analyze_dataframe_store pipeline0
        [[("text", [PyVal.vstr "hi"]), ("platform", [PyVal.vstr "general"])]] 0).1.getD
          (analyze_dataframe_store pipeline0
            [[("text", [PyVal.vstr "hi"]), ("platform", [PyVal.vstr "general"])]] 0).2 [])) :=
  ⟨by norm_num,
   claim_C10 pipeline0
     [[("text", [PyVal.vstr "hi"]), ("platform", [PyVal.vstr "general"])]] 0
     (by norm_num)⟩
